import Mathlib

/-!
# Conference Central — verification of the core subsystems

A shallow embedding of the three core subsystems of the Conference Central
backend (`conference.py`, `main.py`):

1. the dynamic query filter compiler (`_formatFilters`, `_getQuery`);
2. the transactional registration & wishlist state manager
   (`_conferenceRegistration`, `addSessionToWishlist`,
   `deleteSessionFromWishlist`);
3. the asynchronous featured-speaker cache pipeline
   (`SetFeaturedSpeakerHandler`, `_updateSpeaker`).

Python exceptions are modelled by `Except`; the datastore transaction
semantics (`@ndb.transactional`: an escaping exception aborts the
transaction, committing nothing) are modelled by returning the pre-call
state alongside an error.
-/

/-- The exceptions the embedded code can raise, tagged with the class and
message used at each raise site in the source. -/
inductive ApiError where
  /-- raised as `endpoints.BadRequestException` -/
  | badRequest (msg : String)
  /-- raised as `endpoints.NotFoundException` -/
  | notFound (msg : String)
  /-- raised as `models.ConflictException` -/
  | conflict (msg : String)
  /-- an unhandled Python `ValueError` (e.g. from a failed `int()` call) -/
  | valueError (msg : String)
  deriving DecidableEq, Repr

deriving instance DecidableEq for Except

/-- The error the spec calls `InvalidFilterError`: raised by
`_formatFilters` when a field or operator lookup fails. -/
def InvalidFilterError : ApiError :=
  .badRequest "Filter contains invalid field or operator."

/-- The error the spec calls `UnsupportedInequalityError`: raised by
`_formatFilters` on an inequality over a second distinct field. -/
def UnsupportedInequalityError : ApiError :=
  .badRequest "Inequality filter is allowed on only one field."

/-- The error the spec calls `CapacityExceededError`: raised by
`_conferenceRegistration` when no seats are available. -/
def CapacityExceededError : ApiError :=
  .conflict "There are no seats available."

/-- The error the spec calls `ConflictError` on a duplicate conference
registration. -/
def DuplicateRegistrationError : ApiError :=
  .conflict "You have already registered for this conference"

/-- The error the spec calls `ConflictError` on a duplicate wishlist add. -/
def DuplicateWishlistError : ApiError :=
  .conflict "You already have this in your wishlist"

-- - - - Query Filter Compiler - - - - - - - - - - - - - - - -

/-- The `OPERATORS` dict of `conference.py`: wire-format operator name to
datastore comparison symbol; a missing key is `none` (Python `KeyError`). -/
def OPERATORS : String → Option String
  | "EQ" => some "="
  | "GT" => some ">"
  | "GTEQ" => some ">="
  | "LT" => some "<"
  | "LTEQ" => some "<="
  | "NE" => some "!="
  | _ => none

/-- The `FIELDS` dict of `conference.py`: wire-format field name to entity
property name; a missing key is `none` (Python `KeyError`). -/
def FIELDS : String → Option String
  | "CITY" => some "city"
  | "TOPIC" => some "topics"
  | "MONTH" => some "month"
  | "MAX_ATTENDEES" => some "maxAttendees"
  | _ => none

/-- One raw filter as submitted by the client (a `ConferenceQueryForm`):
wire-format field name, wire-format operator name, and a textual value. -/
structure QueryFilter where
  field : String
  operator : String
  value : String
  deriving DecidableEq, Repr

/-- One formatted filter as produced by `_formatFilters`: the field and
operator have been translated through `FIELDS` / `OPERATORS`; the value is
still the raw text (`_formatFilters` never looks at it). -/
structure FormattedFilter where
  field : String
  operator : String
  value : String
  deriving DecidableEq, Repr

/-- The loop body of `_formatFilters`, threading the `inequality_field`
tracker and the `formatted_filters` accumulator through the filter list. -/
def formatFiltersAux : List QueryFilter → Option String → List FormattedFilter →
    Except ApiError (Option String × List FormattedFilter)
  | [], ineq, acc => .ok (ineq, acc)
  | f :: rest, ineq, acc =>
    match FIELDS f.field, OPERATORS f.operator with
    | some fld, some op =>
      if op ≠ "=" then
        -- an inequality: reject if a previous inequality hit another field
        if ineq.isSome ∧ ineq ≠ some fld then
          .error UnsupportedInequalityError
        else
          formatFiltersAux rest (some fld) (acc ++ [⟨fld, op, f.value⟩])
      else
        formatFiltersAux rest ineq (acc ++ [⟨fld, op, f.value⟩])
    | _, _ => .error InvalidFilterError

/-- The function `_formatFilters`: validate and translate the raw filters, returning the
single inequality field (if any) and the formatted filter list. -/
def formatFilters (filters : List QueryFilter) :
    Except ApiError (Option String × List FormattedFilter) :=
  formatFiltersAux filters none []

/-- An ASCII decimal digit. -/
def isDigitChar (c : Char) : Bool :=
  48 ≤ c.toNat && c.toNat ≤ 57

/-- Whitespace stripped by Python's `int()` before parsing. -/
def isSpaceChar (c : Char) : Bool :=
  c = ' ' || c = '\t' || c = '\n' || c = '\r'

/-- A non-empty all-digit run read as a decimal number; anything else is
rejected. -/
def pyIntDigits : List Char → Option Nat
  | [] => none
  | cs =>
    if cs.all isDigitChar then
      some (cs.foldl (fun n c => 10 * n + (c.toNat - 48)) 0)
    else none

/-- Python's `int()` builtin applied to a string: surrounding whitespace is
tolerated, then an optionally signed run of decimal digits; anything else
raises `ValueError`. -/
def pyInt (s : String) : Option Int :=
  let cs :=
    ((s.toList.dropWhile isSpaceChar).reverse.dropWhile isSpaceChar).reverse
  match cs with
  | '-' :: ds => (pyIntDigits ds).map (fun n => -(n : Int))
  | '+' :: ds => (pyIntDigits ds).map (fun n => (n : Int))
  | ds => (pyIntDigits ds).map (fun n => (n : Int))

/-- A query constraint value after coercion: numeric fields carry integers,
the rest keep their text. -/
inductive QueryValue where
  | intV (n : Int)
  | strV (s : String)
  deriving DecidableEq, Repr

/-- One `ndb.query.FilterNode` of the compiled query. -/
structure FilterNode where
  field : String
  operator : String
  value : QueryValue
  deriving DecidableEq, Repr

/-- The compiled query object: the sort keys in the order they were applied
(`q.order` calls), then the constraint nodes in application order. -/
structure Query where
  orders : List String
  nodes : List FilterNode
  deriving DecidableEq, Repr

/-- The constraint-building loop of `_getQuery`: coerce values of the
numeric fields through `int()` (an unparsable value raises `ValueError`)
and build one `FilterNode` per formatted filter. -/
def buildNodes : List FormattedFilter → Except ApiError (List FilterNode)
  | [] => .ok []
  | f :: rest =>
    if f.field = "month" ∨ f.field = "maxAttendees" then
      match pyInt f.value with
      | some n => do
        let ns ← buildNodes rest
        .ok (⟨f.field, f.operator, .intV n⟩ :: ns)
      | none =>
        .error (.valueError
          ("invalid literal for int() with base 10: " ++ f.value))
    else do
      let ns ← buildNodes rest
      .ok (⟨f.field, f.operator, .strV f.value⟩ :: ns)

/-- The function `_getQuery`: run `_formatFilters`, fix the sort order (inequality field
first when present, then `name`; `name` alone otherwise), then apply every
formatted constraint. -/
def getQuery (filters : List QueryFilter) : Except ApiError Query :=
  match formatFilters filters with
  | .error e => .error e
  | .ok (ineq, fs) =>
    let orders :=
      match ineq with
      | none => ["name"]
      | some fld => [fld, "name"]
    match buildNodes fs with
    | .error e => .error e
    | .ok ns => .ok ⟨orders, ns⟩

-- - - - Registration/Wishlist Manager - - - - - - - - - - - -

/-- A user `Profile` entity: the two reference lists the manager mutates. -/
structure Profile where
  conferenceKeysToAttend : List String
  sessionKeysOnWishlist : List String
  deriving DecidableEq, Repr

/-- A `Conference` entity: the seat counter the manager mutates
(an ndb `IntegerProperty`, i.e. an unbounded integer). -/
structure Conference where
  seatsAvailable : Int
  deriving DecidableEq, Repr

/-- Python's `list.remove(a)`: drop the first occurrence of `a`.
(The real call raises `ValueError` when `a` is absent; every call site in
the source is guarded by an `in` test, so that path is unreachable.) -/
def pyRemove : List String → String → List String
  | [], _ => []
  | x :: xs, a => if x = a then xs else x :: pyRemove xs a

/-- The method `_conferenceRegistration(request, reg)`: the body of the
`@ndb.transactional(xg=True)` method, acting on the user's `Profile` and
the conference named by `wsck` (absent when the key resolves to nothing).
On success it returns the `BooleanMessage` payload and the two entities as
written back by `put()`. -/
def conferenceRegistration (reg : Bool) (wsck : String)
    (prof : Profile) (conf? : Option Conference) :
    Except ApiError (Bool × Profile × Conference) :=
  match conf? with
  | none => .error (.notFound ("No conference found with key: " ++ wsck))
  | some conf =>
    if reg then
      if wsck ∈ prof.conferenceKeysToAttend then
        .error DuplicateRegistrationError
      else if conf.seatsAvailable ≤ 0 then
        .error CapacityExceededError
      else
        .ok (true,
          { prof with
            conferenceKeysToAttend := prof.conferenceKeysToAttend ++ [wsck] },
          { conf with seatsAvailable := conf.seatsAvailable - 1 })
    else
      if wsck ∈ prof.conferenceKeysToAttend then
        .ok (true,
          { prof with
            conferenceKeysToAttend := pyRemove prof.conferenceKeysToAttend wsck },
          { conf with seatsAvailable := conf.seatsAvailable + 1 })
      else
        .ok (false, prof, conf)

/-- The method `_conferenceRegistration` as observed through the datastore: the method
runs in a transaction, so an escaping exception commits nothing and both
entities keep their pre-call state. -/
def runConferenceRegistration (reg : Bool) (wsck : String)
    (prof : Profile) (conf : Conference) :
    Except ApiError Bool × Profile × Conference :=
  match conferenceRegistration reg wsck prof (some conf) with
  | .ok (b, p, c) => (.ok b, p, c)
  | .error e => (.error e, prof, conf)

/-- The method `addSessionToWishlist`: the session-existence check raises
`NotFoundException`; inside the `try`, a duplicate add raises
`ConflictException`, which the bare `except:` immediately catches, turning
the call into `BooleanMessage(data=False)` with the profile unchanged. -/
def addSessionToWishlist (wssk : String) (prof : Profile)
    (sessionExists : Bool) : Except ApiError (Bool × Profile) :=
  if ¬ sessionExists then
    .error (.notFound ("No session found with key: " ++ wssk))
  else if wssk ∈ prof.sessionKeysOnWishlist then
    -- ConflictException raised, caught by the bare except: result = False
    .ok (false, prof)
  else
    .ok (true,
      { prof with
        sessionKeysOnWishlist := prof.sessionKeysOnWishlist ++ [wssk] })

/-- The method `deleteSessionFromWishlist`: the session-existence check raises
`NotFoundException`; inside the `try`, an absent wishlist key raises
`NotFoundException('No session found in wishlist ...')`, which the bare
`except:` immediately catches, turning the call into
`BooleanMessage(data=False)` with the profile unchanged. -/
def deleteSessionFromWishlist (wssk : String) (prof : Profile)
    (sessionExists : Bool) : Except ApiError (Bool × Profile) :=
  if ¬ sessionExists then
    .error (.notFound ("No session found with key: " ++ wssk))
  else if wssk ∈ prof.sessionKeysOnWishlist then
    .ok (true,
      { prof with
        sessionKeysOnWishlist := pyRemove prof.sessionKeysOnWishlist wssk })
  else
    -- NotFoundException raised, caught by the bare except: result = False
    .ok (false, prof)

-- - - - Featured Speaker Pipeline - - - - - - - - - - - - - -

/-- A `Session` entity, restricted to the fields the pipeline reads. -/
structure Session where
  name : String
  speakerKey : String
  websafeConferenceKey : String
  deriving DecidableEq, Repr

/-- A `Speaker` entity: the denormalized session-name list and its derived
count. The count is an ndb `IntegerProperty` set from `len(...)`. -/
structure Speaker where
  name : String
  sessions : List String
  sessions_count : Int
  deriving DecidableEq, Repr

/-- The datastore slice the pipeline touches: all `Session` entities and
the `Speaker` entities addressed by their (urlsafe) key. -/
structure Datastore where
  sessions : List Session
  speakers : List (String × Speaker)
  deriving DecidableEq, Repr

/-- The task payload enqueued by `_createSessionObject` for
`/tasks/set_featured_speaker`. -/
structure SpeakerTask where
  speakerKey : String
  speakerName : String
  sessionName : String
  websafeConferenceKey : String
  deriving DecidableEq, Repr

/-- The lookup `ndb.Key(urlsafe=k).get()` on the speaker table: association-list
lookup by key. -/
def lookupSpeaker (store : Datastore) (k : String) : Option Speaker :=
  store.speakers.lookup k

/-- The write `speaker.put()`: write back the entity under its key, replacing the
stored value. -/
def putSpeaker : List (String × Speaker) → String → Speaker →
    List (String × Speaker)
  | [], k, v => [(k, v)]
  | (k', v') :: rest, k, v =>
    if k' = k then (k, v) :: rest else (k', v') :: putSpeaker rest k v

/-- The `Session.query(ndb.AND(...))` of `SetFeaturedSpeakerHandler`: all
sessions whose `speakerKey` and `websafeConferenceKey` match the task. -/
def featuredSessions (store : Datastore) (task : SpeakerTask) : List Session :=
  store.sessions.filter fun s =>
    s.speakerKey == task.speakerKey &&
    s.websafeConferenceKey == task.websafeConferenceKey

/-- The announcement string built by `SetFeaturedSpeakerHandler`:
`'%s is Featured Speaker with sessions ' % speakerName` followed by the
comma-joined session names. -/
def featuredString (task : SpeakerTask) (ss : List Session) : String :=
  task.speakerName ++ " is Featured Speaker with sessions " ++
    String.intercalate ", " (ss.map Session.name)

/-- The static method `ConferenceApi._updateSpeaker(request)`: look the speaker up by key;
if found, append the task's session name, recompute `sessions_count` as
the list length, and `put()`; if not found, do nothing (result `False`,
the silent best-effort path). -/
def updateSpeaker (store : Datastore) (task : SpeakerTask) :
    Datastore × Bool :=
  match lookupSpeaker store task.speakerKey with
  | some sp =>
    let sessions' := sp.sessions ++ [task.sessionName]
    ({ store with
       speakers := putSpeaker store.speakers task.speakerKey
         { sp with sessions := sessions',
                   sessions_count := (sessions'.length : Int) } },
     true)
  | none => (store, false)

/-- The handler `SetFeaturedSpeakerHandler.post`: set the `FEATURED_SPEAKER` memcache
entry when the matching-session count exceeds one (otherwise leave the
cache alone), then run `_updateSpeaker`. The cache is `Option String`
(`none` = key absent). -/
def setFeaturedSpeakerHandler (store : Datastore) (cache : Option String)
    (task : SpeakerTask) : Datastore × Option String :=
  let ss := featuredSessions store task
  let cache' := if ss.length > 1 then some (featuredString task ss) else cache
  ((updateSpeaker store task).1, cache')

-- - - - Helper lemmas - - - - - - - - - - - - - - - - - - - -

/-- Removing the first occurrence of a freshly appended element restores
the original list when the element was not already present. -/
theorem pyRemove_append_of_not_mem (l : List String) (a : String)
    (h : a ∉ l) : pyRemove (l ++ [a]) a = l := by
  induction l with
  | nil => simp [pyRemove]
  | cons x xs ih =>
    rw [List.mem_cons, not_or] at h
    show pyRemove (x :: (xs ++ [a])) a = x :: xs
    rw [pyRemove, if_neg (fun hxa => h.1 hxa.symm), ih h.2]

/-- A `formatFilters` failure propagates through `getQuery` unchanged. -/
theorem getQuery_error_of_formatFilters_error (l : List QueryFilter)
    (e : ApiError) (h : formatFilters l = .error e) :
    getQuery l = .error e := by
  unfold getQuery
  rw [h]

-- - - - C1, C5, C6: conference registration - - - - - - - - -

/-- C1: with `seatsAvailable = 0` and the user not yet registered,
`registerForConference` fails with `CapacityExceededError` (the
`ConflictException` raised as "There are no seats available."), and the
aborted transaction leaves both the profile's `conferenceKeysToAttend` and
the conference's `seatsAvailable` exactly as they were. -/
theorem register_full_conference_unchanged (prof : Profile)
    (conf : Conference) (wsck : String)
    (hseats : conf.seatsAvailable = 0)
    (hnew : wsck ∉ prof.conferenceKeysToAttend) :
    runConferenceRegistration true wsck prof conf =
      (.error CapacityExceededError, prof, conf) := by
  simp [runConferenceRegistration, conferenceRegistration, hnew, hseats]

/-- Witness for C1 at a concrete state: an empty profile and a sold-out
conference. -/
theorem register_full_conference_unchanged_witness :
    runConferenceRegistration true "c1" ⟨[], []⟩ ⟨0⟩ =
      (.error CapacityExceededError, ⟨[], []⟩, ⟨0⟩) :=
  register_full_conference_unchanged ⟨[], []⟩ ⟨0⟩ "c1" rfl (by decide)

/-- C5: registering for an existing conference with a free seat and then
unregistering restores `seatsAvailable` to its pre-registration value and
restores `conferenceKeysToAttend` to its prior contents. -/
theorem register_unregister_roundtrip (prof : Profile) (conf : Conference)
    (wsck : String) (hseats : 0 < conf.seatsAvailable)
    (hnew : wsck ∉ prof.conferenceKeysToAttend) :
    ∃ prof1 conf1,
      runConferenceRegistration true wsck prof conf =
        (.ok true, prof1, conf1) ∧
      runConferenceRegistration false wsck prof1 conf1 =
        (.ok true, prof, conf) := by
  refine ⟨{ prof with
              conferenceKeysToAttend := prof.conferenceKeysToAttend ++ [wsck] },
          { conf with seatsAvailable := conf.seatsAvailable - 1 }, ?_, ?_⟩
  · have hs : ¬ conf.seatsAvailable ≤ 0 := by omega
    simp [runConferenceRegistration, conferenceRegistration, hnew, hs]
  · simp [runConferenceRegistration, conferenceRegistration,
      pyRemove_append_of_not_mem prof.conferenceKeysToAttend wsck hnew]

/-- Witness for C5 at a concrete state: one free seat, empty profile. -/
theorem register_unregister_roundtrip_witness :
    ∃ prof1 conf1,
      runConferenceRegistration true "c1" ⟨[], []⟩ ⟨1⟩ =
        (.ok true, prof1, conf1) ∧
      runConferenceRegistration false "c1" prof1 conf1 =
        (.ok true, ⟨[], []⟩, ⟨1⟩) :=
  register_unregister_roundtrip ⟨[], []⟩ ⟨1⟩ "c1" (by decide) (by decide)

/-- C6: `unregisterFromConference` on a never-linked pair returns
`BooleanMessage(data=False)` without raising, and leaves both
`seatsAvailable` and `conferenceKeysToAttend` unchanged. -/
theorem unregister_not_linked_noop (prof : Profile) (conf : Conference)
    (wsck : String) (hnew : wsck ∉ prof.conferenceKeysToAttend) :
    runConferenceRegistration false wsck prof conf =
      (.ok false, prof, conf) := by
  simp [runConferenceRegistration, conferenceRegistration, hnew]

/-- Witness for C6 at a concrete state. -/
theorem unregister_not_linked_noop_witness :
    runConferenceRegistration false "c1" ⟨["c2"], []⟩ ⟨5⟩ =
      (.ok false, ⟨["c2"], []⟩, ⟨5⟩) :=
  unregister_not_linked_noop ⟨["c2"], []⟩ ⟨5⟩ "c1" (by decide)

-- - - - C2: duplicate Link - - - - - - - - - - - - - - - - - -

/-- Counterexample for C2 as stated: a duplicate `addSessionToWishlist`
does not surface `ConflictError` — the `ConflictException` is caught by
the method's own bare `except:` and the call returns
`BooleanMessage(data=False)`. -/
theorem duplicate_wishlist_add_no_error :
    addSessionToWishlist "s1" ⟨[], []⟩ true = .ok (true, ⟨[], ["s1"]⟩) ∧
    addSessionToWishlist "s1" ⟨[], ["s1"]⟩ true = .ok (false, ⟨[], ["s1"]⟩) ∧
    addSessionToWishlist "s1" ⟨[], ["s1"]⟩ true ≠
      .error DuplicateWishlistError := by
  decide

/-- C2 (amended): a second `registerForConference` for an already-linked
pair fails with `ConflictError` and the aborted transaction leaves the
state unchanged, so `seatsAvailable` is decremented exactly once in total
and the conference key appears exactly once in the profile; a second
`addSessionToWishlist` returns `BooleanMessage(data=False)` (the
`ConflictError` raised internally is swallowed by the bare `except:`) and
the wishlist still contains the session key exactly once. -/
theorem second_link_conflict_once (prof : Profile) (conf : Conference)
    (wsck wssk : String)
    (hreg : wsck ∉ prof.conferenceKeysToAttend)
    (hseats : 0 < conf.seatsAvailable)
    (hwl : wssk ∉ prof.sessionKeysOnWishlist) :
    ∃ prof1 conf1 prof2,
      runConferenceRegistration true wsck prof conf =
        (.ok true, prof1, conf1) ∧
      runConferenceRegistration true wsck prof1 conf1 =
        (.error DuplicateRegistrationError, prof1, conf1) ∧
      conf1.seatsAvailable = conf.seatsAvailable - 1 ∧
      prof1.conferenceKeysToAttend.count wsck = 1 ∧
      addSessionToWishlist wssk prof true = .ok (true, prof2) ∧
      addSessionToWishlist wssk prof2 true = .ok (false, prof2) ∧
      prof2.sessionKeysOnWishlist.count wssk = 1 := by
  have hs : ¬ conf.seatsAvailable ≤ 0 := by omega
  refine ⟨{ prof with
              conferenceKeysToAttend := prof.conferenceKeysToAttend ++ [wsck] },
          { conf with seatsAvailable := conf.seatsAvailable - 1 },
          { prof with
              sessionKeysOnWishlist := prof.sessionKeysOnWishlist ++ [wssk] },
          ?_, ?_, rfl, ?_, ?_, ?_, ?_⟩
  · simp [runConferenceRegistration, conferenceRegistration, hreg, hs]
  · simp [runConferenceRegistration, conferenceRegistration]
  · simp [List.count_append, List.count_eq_zero.mpr hreg]
  · simp [addSessionToWishlist, hwl]
  · simp [addSessionToWishlist]
  · simp [List.count_append, List.count_eq_zero.mpr hwl]

/-- Witness for C2 (amended) at a concrete state. -/
theorem second_link_conflict_once_witness :
    ∃ prof1 conf1 prof2,
      runConferenceRegistration true "c1" ⟨[], []⟩ ⟨1⟩ =
        (.ok true, prof1, conf1) ∧
      runConferenceRegistration true "c1" prof1 conf1 =
        (.error DuplicateRegistrationError, prof1, conf1) ∧
      conf1.seatsAvailable = (1 : Int) - 1 ∧
      prof1.conferenceKeysToAttend.count "c1" = 1 ∧
      addSessionToWishlist "s1" ⟨[], []⟩ true = .ok (true, prof2) ∧
      addSessionToWishlist "s1" prof2 true = .ok (false, prof2) ∧
      prof2.sessionKeysOnWishlist.count "s1" = 1 :=
  second_link_conflict_once ⟨[], []⟩ ⟨1⟩ "c1" "s1" (by decide) (by decide)
    (by decide)

-- - - - C7: wishlist removal of an absent key - - - - - - - -

/-- Counterexample for C7 as stated: deleting a session that is not on the
wishlist does not propagate `NotFoundInWishlistError` — the
`NotFoundException` raised inside the `try` is caught by the method's own
bare `except:` and the call returns `BooleanMessage(data=False)`. -/
theorem wishlist_delete_absent_no_error :
    deleteSessionFromWishlist "s1" ⟨[], []⟩ true = .ok (false, ⟨[], []⟩) ∧
    deleteSessionFromWishlist "s1" ⟨[], []⟩ true ≠
      .error (.notFound "No session found in wishlist with key: s1") := by
  decide

/-- C7 (amended): for an existing session whose key is not on the user's
wishlist, `deleteSessionFromWishlist` returns `BooleanMessage(data=False)`
without raising (the internal `NotFoundInWishlistError` is swallowed by
the bare `except:`), and the profile is unchanged. -/
theorem wishlist_delete_absent_returns_false (prof : Profile)
    (wssk : String) (h : wssk ∉ prof.sessionKeysOnWishlist) :
    deleteSessionFromWishlist wssk prof true = .ok (false, prof) := by
  simp [deleteSessionFromWishlist, h]

/-- Witness for C7 (amended) at a concrete state. -/
theorem wishlist_delete_absent_returns_false_witness :
    deleteSessionFromWishlist "s1" ⟨[], ["s2"]⟩ true =
      .ok (false, ⟨[], ["s2"]⟩) :=
  wishlist_delete_absent_returns_false ⟨[], ["s2"]⟩ "s1" (by decide)

-- - - - C8, C9: featured-speaker consumer - - - - - - - - - -

/-- C8: the consumer publishes to the cache exactly when more than one
session at the task's conference has the task's speaker; the published
value is the announcement string enumerating every such session's name
(whatever the prior cache value was), and with at most one matching
session the cache is left untouched. -/
theorem featured_speaker_cache_publication (store : Datastore)
    (cache : Option String) (task : SpeakerTask) :
    (1 < (featuredSessions store task).length →
      (setFeaturedSpeakerHandler store cache task).2 =
        some (task.speakerName ++ " is Featured Speaker with sessions " ++
          String.intercalate ", "
            ((featuredSessions store task).map Session.name))) ∧
    ((featuredSessions store task).length ≤ 1 →
      (setFeaturedSpeakerHandler store cache task).2 = cache) := by
  constructor
  · intro h
    simp [setFeaturedSpeakerHandler, featuredString, h]
  · intro h
    have hn : ¬ 1 < (featuredSessions store task).length := by omega
    simp [setFeaturedSpeakerHandler, hn]

/-- A datastore where speaker `spk` has two sessions at conference
`conf`. -/
def storeTwoSessions : Datastore :=
  ⟨[⟨"A", "spk", "conf"⟩, ⟨"B", "spk", "conf"⟩], [("spk", ⟨"S", [], 0⟩)]⟩

/-- A datastore where speaker `spk` has a single session at conference
`conf`. -/
def storeOneSession : Datastore :=
  ⟨[⟨"A", "spk", "conf"⟩], [("spk", ⟨"S", [], 0⟩)]⟩

/-- The task enqueued for speaker `spk` / conference `conf` with session
name `A`. -/
def taskSpk : SpeakerTask := ⟨"spk", "S", "A", "conf"⟩

/-- Witness for C8: with two matching sessions the cache receives the
announcement naming both; with one matching session a prior cache value
survives untouched. -/
theorem featured_speaker_cache_publication_witness :
    (setFeaturedSpeakerHandler storeTwoSessions none taskSpk).2 =
      some ("S" ++ " is Featured Speaker with sessions " ++
        String.intercalate ", "
          ((featuredSessions storeTwoSessions taskSpk).map Session.name)) ∧
    (setFeaturedSpeakerHandler storeOneSession (some "old") taskSpk).2 =
      some "old" :=
  ⟨(featured_speaker_cache_publication storeTwoSessions none taskSpk).1
      (by decide),
   (featured_speaker_cache_publication storeOneSession (some "old") taskSpk).2
      (by decide)⟩

/-- A datastore holding the just-created session `Talk` and its speaker
`spk`, which has not yet been updated by the consumer. -/
def speakerStore : Datastore :=
  ⟨[⟨"Talk", "spk", "conf"⟩], [("spk", ⟨"S", [], 0⟩)]⟩

/-- The featured-speaker task enqueued for that session creation. -/
def speakerTask : SpeakerTask := ⟨"spk", "S", "Talk", "conf"⟩

/-- One delivery of the task. -/
def deliveredOnce : Datastore × Option String :=
  setFeaturedSpeakerHandler speakerStore none speakerTask

/-- A duplicate (at-least-once) second delivery of the same task. -/
def deliveredAgain : Datastore × Option String :=
  setFeaturedSpeakerHandler deliveredOnce.1 deliveredOnce.2 speakerTask

/-- C9 is violated by the code: `_updateSpeaker` appends the task's
session name on every delivery, so a duplicate delivery leaves the
speaker's `sessions` list holding the name twice and `sessions_count`
at 2 — the datastore state after two executions differs from the state
after one. -/
theorem featured_consumer_duplicate_delivery :
    (lookupSpeaker deliveredOnce.1 "spk").map Speaker.sessions =
      some ["Talk"] ∧
    (lookupSpeaker deliveredOnce.1 "spk").map Speaker.sessions_count =
      some 1 ∧
    (lookupSpeaker deliveredAgain.1 "spk").map Speaker.sessions =
      some ["Talk", "Talk"] ∧
    (lookupSpeaker deliveredAgain.1 "spk").map Speaker.sessions_count =
      some 2 ∧
    deliveredAgain.1 ≠ deliveredOnce.1 := by
  decide

-- - - - C4: sort order of the compiled query - - - - - - - - -

/-- A raw filter whose operator translates to a non-equality comparison
("Every operation except `=` is an inequality"). -/
def ineqFilter (f : QueryFilter) : Bool :=
  match OPERATORS f.operator with
  | some op => decide (op ≠ "=")
  | none => false

/-- When the formatting loop succeeds with no inequality field, it also
started with none and no filter in the list is an inequality. -/
theorem formatFiltersAux_ok_none (l : List QueryFilter) :
    ∀ (i : Option String) (acc fs : List FormattedFilter),
    formatFiltersAux l i acc = .ok (none, fs) →
    i = none ∧ ∀ g ∈ l, ineqFilter g = false := by
  induction l with
  | nil =>
    intro i acc fs h
    simp only [formatFiltersAux, Except.ok.injEq, Prod.mk.injEq] at h
    exact ⟨h.1, by simp⟩
  | cons f rest ih =>
    intro i acc fs h
    cases hF : FIELDS f.field with
    | none => simp [formatFiltersAux, hF] at h
    | some fld =>
      cases hO : OPERATORS f.operator with
      | none => simp [formatFiltersAux, hF, hO] at h
      | some op =>
        by_cases hop : op = "="
        · simp only [formatFiltersAux, hF, hO] at h
          rw [if_neg (by simp [hop])] at h
          obtain ⟨hi, hrest⟩ := ih i _ fs h
          refine ⟨hi, fun g hg => ?_⟩
          rcases List.mem_cons.mp hg with hgf | hgr
          · subst hgf; simp [ineqFilter, hO, hop]
          · exact hrest g hgr
        · simp only [formatFiltersAux, hF, hO] at h
          rw [if_pos (by simp [hop])] at h
          by_cases hguard : i.isSome ∧ i ≠ some fld
          · rw [if_pos hguard] at h
            exact absurd h (by simp)
          · rw [if_neg hguard] at h
            exact absurd (ih _ _ fs h).1 (by simp)

/-- When the formatting loop succeeds with inequality field `fld`, either
it started with `some fld` or some filter of the list is an inequality on
a field that maps to `fld`. -/
theorem formatFiltersAux_ok_some (l : List QueryFilter) :
    ∀ (i : Option String) (acc : List FormattedFilter) (fld : String)
      (fs : List FormattedFilter),
    formatFiltersAux l i acc = .ok (some fld, fs) →
    i = some fld ∨ ∃ g ∈ l, ineqFilter g = true ∧ FIELDS g.field = some fld := by
  induction l with
  | nil =>
    intro i acc fld fs h
    simp only [formatFiltersAux, Except.ok.injEq, Prod.mk.injEq] at h
    exact .inl h.1
  | cons f rest ih =>
    intro i acc fld fs h
    cases hF : FIELDS f.field with
    | none => simp [formatFiltersAux, hF] at h
    | some fld' =>
      cases hO : OPERATORS f.operator with
      | none => simp [formatFiltersAux, hF, hO] at h
      | some op =>
        by_cases hop : op = "="
        · simp only [formatFiltersAux, hF, hO] at h
          rw [if_neg (by simp [hop])] at h
          rcases ih i _ fld fs h with hi | ⟨g, hg, hgi, hgf⟩
          · exact .inl hi
          · exact .inr ⟨g, List.mem_cons_of_mem f hg, hgi, hgf⟩
        · simp only [formatFiltersAux, hF, hO] at h
          rw [if_pos (by simp [hop])] at h
          by_cases hguard : i.isSome ∧ i ≠ some fld'
          · rw [if_pos hguard] at h
            exact absurd h (by simp)
          · rw [if_neg hguard] at h
            rcases ih _ _ fld fs h with hi | ⟨g, hg, hgi, hgf⟩
            · refine .inr ⟨f, List.mem_cons_self f rest, ?_, ?_⟩
              · simp [ineqFilter, hO, hop]
              · rw [hF]; exact hi
            · exact .inr ⟨g, List.mem_cons_of_mem f hg, hgi, hgf⟩

/-- C4: when the filter list passes `_formatFilters` (so at most one field
bears a non-equality operator) and `_getQuery` produces a query, the
query's sort order is the inequality field followed by `name` when an
inequality filter exists, and `name` alone when none does; the inequality
field really is the (translated) field of an inequality filter of the
list. -/
theorem compiled_query_sort_order (l : List QueryFilter)
    (ineq : Option String) (fs : List FormattedFilter) (q : Query)
    (hf : formatFilters l = .ok (ineq, fs))
    (hq : getQuery l = .ok q) :
    q.orders = (match ineq with
                | none => ["name"]
                | some fld => [fld, "name"]) ∧
    (∀ fld, ineq = some fld →
      ∃ g ∈ l, ineqFilter g = true ∧ FIELDS g.field = some fld) ∧
    (ineq = none → ∀ g ∈ l, ineqFilter g = false) := by
  refine ⟨?_, ?_, ?_⟩
  · unfold getQuery at hq
    rw [hf] at hq
    simp only [] at hq
    cases hb : buildNodes fs with
    | ok ns =>
      rw [hb] at hq
      simp only [Except.ok.injEq] at hq
      rw [← hq]
      cases ineq <;> rfl
    | error e =>
      rw [hb] at hq
      exact absurd hq (by simp)
  · intro fld hfld
    subst hfld
    rcases formatFiltersAux_ok_some l none [] fld fs hf with hi | hex
    · exact absurd hi (by simp)
    · exact hex
  · intro hnone
    subst hnone
    exact (formatFiltersAux_ok_none l none [] fs hf).2

/-- Witness for C4: a single inequality filter on `CITY` compiles to a
query sorted by `city` then `name`, and the inequality field is borne by
that filter. -/
theorem compiled_query_sort_order_witness :
    (Query.mk ["city", "name"] [⟨"city", ">", .strV "x"⟩]).orders =
      ["city", "name"] ∧
    (∀ fld, (some "city" : Option String) = some fld →
      ∃ g ∈ [QueryFilter.mk "CITY" "GT" "x"],
        ineqFilter g = true ∧ FIELDS g.field = some fld) ∧
    ((some "city" : Option String) = none →
      ∀ g ∈ [QueryFilter.mk "CITY" "GT" "x"], ineqFilter g = false) :=
  compiled_query_sort_order [⟨"CITY", "GT", "x"⟩] (some "city")
    [⟨"city", ">", "x"⟩] ⟨["city", "name"], [⟨"city", ">", .strV "x"⟩]⟩
    (by decide) (by decide)

-- - - - C3: inequality filters on two distinct fields - - - -

/-- Once the loop tracks inequality field `fld0`, reaching any later
inequality filter whose field maps elsewhere raises
`UnsupportedInequalityError` (as long as every filter validates). -/
theorem formatFiltersAux_second_field_error (l : List QueryFilter) :
    ∀ (fld0 : String) (acc : List FormattedFilter),
    (∀ f ∈ l, (FIELDS f.field).isSome ∧ (OPERATORS f.operator).isSome) →
    (∃ f ∈ l, ineqFilter f = true ∧ FIELDS f.field ≠ some fld0) →
    formatFiltersAux l (some fld0) acc = .error UnsupportedInequalityError := by
  induction l with
  | nil =>
    intro fld0 acc hv hex
    obtain ⟨f, hf, -⟩ := hex
    exact absurd hf (List.not_mem_nil f)
  | cons f' rest ih =>
    intro fld0 acc hv hex
    obtain ⟨f, hfmem, hfi, hfne⟩ := hex
    obtain ⟨hF', hO'⟩ := hv f' (List.mem_cons_self f' rest)
    obtain ⟨fld', hF⟩ := Option.isSome_iff_exists.mp hF'
    obtain ⟨op', hO⟩ := Option.isSome_iff_exists.mp hO'
    by_cases hop : op' = "="
    · have hfr : f ∈ rest := by
        rcases List.mem_cons.mp hfmem with hff | hfr
        · subst hff; simp [ineqFilter, hO, hop] at hfi
        · exact hfr
      simp only [formatFiltersAux, hF, hO]
      rw [if_neg (by simp [hop])]
      exact ih fld0 _ (fun g hg => hv g (List.mem_cons_of_mem f' hg))
        ⟨f, hfr, hfi, hfne⟩
    · by_cases heq : fld' = fld0
      · have hfr : f ∈ rest := by
          rcases List.mem_cons.mp hfmem with hff | hfr
          · subst hff; rw [hF, heq] at hfne; exact absurd rfl hfne
          · exact hfr
        simp only [formatFiltersAux, hF, hO]
        rw [if_pos (by simp [hop])]
        rw [if_neg (by simp [heq])]
        subst heq
        exact ih fld' _ (fun g hg => hv g (List.mem_cons_of_mem f' hg))
          ⟨f, hfr, hfi, hfne⟩
      · simp only [formatFiltersAux, hF, hO]
        rw [if_pos (by simp [hop])]
        rw [if_pos ⟨rfl, fun hsome => heq (Option.some.inj hsome).symm⟩]

/-- Starting from no tracked inequality field, a (fully valid) filter list
holding inequality filters over two distinct translated fields makes the
loop fail with `UnsupportedInequalityError`, wherever the two sit. -/
theorem formatFiltersAux_two_fields_error (l : List QueryFilter) :
    ∀ (acc : List FormattedFilter),
    (∀ f ∈ l, (FIELDS f.field).isSome ∧ (OPERATORS f.operator).isSome) →
    (∃ f1 ∈ l, ∃ f2 ∈ l, ineqFilter f1 = true ∧ ineqFilter f2 = true ∧
      FIELDS f1.field ≠ FIELDS f2.field) →
    formatFiltersAux l none acc = .error UnsupportedInequalityError := by
  induction l with
  | nil =>
    intro acc hv hex
    obtain ⟨f1, hf1, -⟩ := hex
    exact absurd hf1 (List.not_mem_nil f1)
  | cons f' rest ih =>
    intro acc hv hex
    obtain ⟨f1, hm1, f2, hm2, hi1, hi2, hne⟩ := hex
    obtain ⟨hF', hO'⟩ := hv f' (List.mem_cons_self f' rest)
    obtain ⟨fld', hF⟩ := Option.isSome_iff_exists.mp hF'
    obtain ⟨op', hO⟩ := Option.isSome_iff_exists.mp hO'
    by_cases hop : op' = "="
    · have hr1 : f1 ∈ rest := by
        rcases List.mem_cons.mp hm1 with hff | hfr
        · subst hff; simp [ineqFilter, hO, hop] at hi1
        · exact hfr
      have hr2 : f2 ∈ rest := by
        rcases List.mem_cons.mp hm2 with hff | hfr
        · subst hff; simp [ineqFilter, hO, hop] at hi2
        · exact hfr
      simp only [formatFiltersAux, hF, hO]
      rw [if_neg (by simp [hop])]
      exact ih _ (fun g hg => hv g (List.mem_cons_of_mem f' hg))
        ⟨f1, hr1, f2, hr2, hi1, hi2, hne⟩
    · simp only [formatFiltersAux, hF, hO]
      rw [if_pos (by simp [hop])]
      rw [if_neg (by simp)]
      -- one of the two inequality fields differs from fld'
      by_cases h1 : FIELDS f1.field = some fld'
      · have h2 : FIELDS f2.field ≠ some fld' := fun h2 =>
          hne (h1.trans h2.symm)
        have hr2 : f2 ∈ rest := by
          rcases List.mem_cons.mp hm2 with hff | hfr
          · subst hff; exact absurd hF h2
          · exact hfr
        exact formatFiltersAux_second_field_error rest fld' _
          (fun g hg => hv g (List.mem_cons_of_mem f' hg)) ⟨f2, hr2, hi2, h2⟩
      · have hr1 : f1 ∈ rest := by
          rcases List.mem_cons.mp hm1 with hff | hfr
          · subst hff; exact absurd hF h1
          · exact hfr
        exact formatFiltersAux_second_field_error rest fld' _
          (fun g hg => hv g (List.mem_cons_of_mem f' hg)) ⟨f1, hr1, hi1, h1⟩

/-- Counterexample for C3 as stated: this list contains inequality
operators on the two distinct fields `CITY` and `MONTH`, yet the compiler
fails with `InvalidFilterError` (the invalid `BOGUS` filter sitting
between them is hit first), not with `UnsupportedInequalityError`. -/
theorem two_ineq_fields_invalid_filter_first :
    ineqFilter ⟨"CITY", "GT", "x"⟩ = true ∧
    ineqFilter ⟨"MONTH", "LT", "3"⟩ = true ∧
    FIELDS "CITY" ≠ FIELDS "MONTH" ∧
    formatFilters [⟨"CITY", "GT", "x"⟩, ⟨"BOGUS", "EQ", "y"⟩,
      ⟨"MONTH", "LT", "3"⟩] = .error InvalidFilterError ∧
    InvalidFilterError ≠ UnsupportedInequalityError := by
  decide

/-- C3 (amended): for every filter list in which every filter's field and
operator are valid and which contains non-equality operators on two
distinct fields, `_formatFilters` fails with `UnsupportedInequalityError`
— regardless of where the two inequality filters appear — and `_getQuery`
produces no query, surfacing the same error. -/
theorem two_ineq_fields_rejected (l : List QueryFilter)
    (hv : ∀ f ∈ l, (FIELDS f.field).isSome ∧ (OPERATORS f.operator).isSome)
    (f1 f2 : QueryFilter) (h1 : f1 ∈ l) (h2 : f2 ∈ l)
    (hi1 : ineqFilter f1 = true) (hi2 : ineqFilter f2 = true)
    (hne : FIELDS f1.field ≠ FIELDS f2.field) :
    formatFilters l = .error UnsupportedInequalityError ∧
    getQuery l = .error UnsupportedInequalityError := by
  have h : formatFilters l = .error UnsupportedInequalityError :=
    formatFiltersAux_two_fields_error l [] hv
      ⟨f1, h1, f2, h2, hi1, hi2, hne⟩
  exact ⟨h, getQuery_error_of_formatFilters_error l _ h⟩

/-- Witness for C3 (amended): inequalities on `CITY` and `MONTH`, in either
role, are rejected. -/
theorem two_ineq_fields_rejected_witness :
    formatFilters [⟨"CITY", "GT", "x"⟩, ⟨"MONTH", "LT", "3"⟩] =
      .error UnsupportedInequalityError ∧
    getQuery [⟨"CITY", "GT", "x"⟩, ⟨"MONTH", "LT", "3"⟩] =
      .error UnsupportedInequalityError :=
  two_ineq_fields_rejected [⟨"CITY", "GT", "x"⟩, ⟨"MONTH", "LT", "3"⟩]
    (by decide) ⟨"CITY", "GT", "x"⟩ ⟨"MONTH", "LT", "3"⟩
    (by decide) (by decide) (by decide) (by decide) (by decide)

-- - - - C10: filter values are never validated - - - - - - - -

/-- C10: for a filter with a valid numeric field (`MONTH` or
`MAX_ATTENDEES`) and a valid operator but a value that is not an integer
literal, `_formatFilters` succeeds — it never inspects the value — and
`_getQuery` then dies with the unhandled `ValueError` of `int()`, not with
the declared validation error. -/
theorem filter_value_not_validated (fname opname v : String)
    (hnum : fname = "MONTH" ∨ fname = "MAX_ATTENDEES")
    (hop : (OPERATORS opname).isSome = true)
    (hv : pyInt v = none) :
    (∃ ineq fs, formatFilters [⟨fname, opname, v⟩] = .ok (ineq, fs)) ∧
    getQuery [⟨fname, opname, v⟩] =
      .error (.valueError ("invalid literal for int() with base 10: " ++ v)) := by
  obtain ⟨op, hO⟩ := Option.isSome_iff_exists.mp hop
  rcases hnum with rfl | rfl
  · have hFd : FIELDS "MONTH" = some "month" := rfl
    by_cases hopeq : op = "="
    · have hFmt : formatFilters [⟨"MONTH", opname, v⟩] =
          .ok (none, [⟨"month", op, v⟩]) := by
        simp [formatFilters, formatFiltersAux, hFd, hO, hopeq]
      exact ⟨⟨none, [⟨"month", op, v⟩], hFmt⟩,
        by simp [getQuery, hFmt, buildNodes, hv]⟩
    · have hFmt : formatFilters [⟨"MONTH", opname, v⟩] =
          .ok (some "month", [⟨"month", op, v⟩]) := by
        simp [formatFilters, formatFiltersAux, hFd, hO, hopeq]
      exact ⟨⟨some "month", [⟨"month", op, v⟩], hFmt⟩,
        by simp [getQuery, hFmt, buildNodes, hv]⟩
  · have hFd : FIELDS "MAX_ATTENDEES" = some "maxAttendees" := rfl
    by_cases hopeq : op = "="
    · have hFmt : formatFilters [⟨"MAX_ATTENDEES", opname, v⟩] =
          .ok (none, [⟨"maxAttendees", op, v⟩]) := by
        simp [formatFilters, formatFiltersAux, hFd, hO, hopeq]
      exact ⟨⟨none, [⟨"maxAttendees", op, v⟩], hFmt⟩,
        by simp [getQuery, hFmt, buildNodes, hv]⟩
    · have hFmt : formatFilters [⟨"MAX_ATTENDEES", opname, v⟩] =
          .ok (some "maxAttendees", [⟨"maxAttendees", op, v⟩]) := by
        simp [formatFilters, formatFiltersAux, hFd, hO, hopeq]
      exact ⟨⟨some "maxAttendees", [⟨"maxAttendees", op, v⟩], hFmt⟩,
        by simp [getQuery, hFmt, buildNodes, hv]⟩

/-- Witness for C10: `MONTH = "abc"` passes `_formatFilters` and crashes
`_getQuery` with the `int()` conversion error. -/
theorem filter_value_not_validated_witness :
    (∃ ineq fs, formatFilters [⟨"MONTH", "EQ", "abc"⟩] = .ok (ineq, fs)) ∧
    getQuery [⟨"MONTH", "EQ", "abc"⟩] =
      .error (.valueError
        ("invalid literal for int() with base 10: " ++ "abc")) :=
  filter_value_not_validated "MONTH" "EQ" "abc" (Or.inl rfl) (by decide)
    (by decide)
